import Mathlib

/-!
# Escher pipeline keys and the SSDO sampler

A shallow embedding of

* `src/escher/impl/vk/pipeline_spec.h` (`PipelineSpec`, its `Hash`, `operator==`, `operator!=`),
* `src/escher/impl/model_pipeline_spec.h` (`ModelPipelineSpec`, its `Hash`, `operator==`,
  `operator!=`),
* `src/escher/impl/ssdo_sampler.cc` (the constructor's size check, `Draw`, `PushConstants`, the
  push-constant range of `CreatePipeline`, and the fragment shader `g_fragment_src`).

`size_t` and `uint32_t` values are natural numbers; where the source converts to `uint32_t` the
reduction modulo `2 ^ 32` is written out.  A `std::vector<uint8_t>` is a list of numbers, compared
as `std::vector::operator==` does (same length, same elements).
-/

namespace escher
namespace impl

/-! ## `PipelineSpec` (pipeline_spec.h) -/

/-- The three private members of `class PipelineSpec`: `type_`, `data_`, `hash_`. -/
structure PipelineSpec where
  type_ : Nat
  data_ : List Nat
  hash_ : Nat
deriving DecidableEq, Repr

namespace PipelineSpec

/-- Accessor `size_t type() const`. -/
def type (spec : PipelineSpec) : Nat := spec.type_

/-- Accessor `const std::vector<uint8_t>& data() const`. -/
def data (spec : PipelineSpec) : List Nat := spec.data_

/-- Accessor `size_t hash() const`. -/
def hash (spec : PipelineSpec) : Nat := spec.hash_

/-- The functor `PipelineSpec::Hash`: `operator()(spec)` returns `spec.hash_`. -/
def Hash (spec : PipelineSpec) : Nat := spec.hash_

/-- The inline `operator==`: hash first, then type, then data, joined by `&&`. -/
def opEq (spec1 spec2 : PipelineSpec) : Bool :=
  spec1.hash == spec2.hash && spec1.type == spec2.type && spec1.data == spec2.data

/-- The inline `operator!=`: `!(spec1 == spec2)`. -/
def opNe (spec1 spec2 : PipelineSpec) : Bool :=
  !(opEq spec1 spec2)

/-- Modelled from the spec: the constructor `PipelineSpec(size_t type, std::vector<uint8_t> data)`
is declared in pipeline_spec.h and defined in a file that is not under src/.  The spec says the
hash is "precomputed at construction, combining `type` and `data`" and is "a pure function of
`(type, data)`"; the combining function is the parameter `combine`. -/
def construct (combine : Nat → List Nat → Nat) (type : Nat) (data : List Nat) : PipelineSpec :=
  { type_ := type, data_ := data, hash_ := combine type data }

end PipelineSpec

/-! ## `ModelPipelineSpec` (model_pipeline_spec.h) -/

/-- Modelled from the spec: `MeshSpec` is declared in escher/shape/mesh_spec.h, which is not under
src/.  The spec calls it "a value describing vertex attribute layout and flags"; the source reads
its member `flags`, which carries that description. -/
structure MeshSpec where
  flags : Nat
deriving DecidableEq, Repr

/-- Modelled from the spec: `operator==` on `MeshSpec` (mesh_spec.h, not under src/); the spec says
the mesh specs are compared "exactly". -/
def MeshSpec.opEq (spec1 spec2 : MeshSpec) : Bool :=
  decide (spec1 = spec2)

/-- The two members of `struct ModelPipelineSpec`; `use_depth_prepass` defaults to `true`. -/
structure ModelPipelineSpec where
  mesh_spec : MeshSpec
  use_depth_prepass : Bool := true
deriving DecidableEq, Repr

namespace ModelPipelineSpec

/-- The conversion `static_cast<std::uint32_t>(bool)`: `true` is 1 and `false` is 0. -/
def boolToU32 (b : Bool) : Nat := if b then 1 else 0

/-- The functor `ModelPipelineSpec::Hash`: both operands are converted to `std::uint32_t`, added
as `std::uint32_t` (so modulo `2 ^ 32`), and the sum is returned as `std::size_t`. -/
def Hash (spec : ModelPipelineSpec) : Nat :=
  (spec.mesh_spec.flags % 2 ^ 32 + boolToU32 spec.use_depth_prepass % 2 ^ 32) % 2 ^ 32

/-- The inline `operator==`: mesh specs equal and prepass flags equal. -/
def opEq (spec1 spec2 : ModelPipelineSpec) : Bool :=
  MeshSpec.opEq spec1.mesh_spec spec2.mesh_spec &&
    spec1.use_depth_prepass == spec2.use_depth_prepass

/-- The inline `operator!=`: `!(spec1 == spec2)`. -/
def opNe (spec1 spec2 : ModelPipelineSpec) : Bool :=
  !(opEq spec1 spec2)

end ModelPipelineSpec

/-! ## Vector records shared by the C++ side and the shader -/

/-- A `vec2`. -/
structure Vec2 (F : Type) where
  x : F
  y : F
deriving DecidableEq, Repr

/-- A `vec3`. -/
structure Vec3 (F : Type) where
  x : F
  y : F
  z : F
deriving DecidableEq, Repr

/-- A `vec4`. -/
structure Vec4 (F : Type) where
  x : F
  y : F
  z : F
  w : F
deriving DecidableEq, Repr

/-! ## `SsdoSampler` (ssdo_sampler.cc), host side -/

/-- Vulkan and Escher object handles are compared by identity only. -/
abbrev Handle := Nat

/-- The image layouts named in ssdo_sampler.cc. -/
inductive ImageLayout where
  | eUndefined
  | eColorAttachmentOptimal
  | eShaderReadOnlyOptimal
deriving DecidableEq, Repr

/-- The descriptor types: `eSampler` is the value of a default-constructed write. -/
inductive DescriptorType where
  | eSampler
  | eCombinedImageSampler
deriving DecidableEq, Repr

/-- The shader stages named in ssdo_sampler.cc. -/
inductive ShaderStageFlagBits where
  | eVertex
  | eFragment
deriving DecidableEq, Repr

/-- The pipeline bind points. -/
inductive PipelineBindPoint where
  | eGraphics
  | eCompute
deriving DecidableEq, Repr

/-- The accessors of `Image` that the constructor reads. -/
structure Image where
  width : Nat
  height : Nat
deriving DecidableEq, Repr

/-- The accessors of `Texture` that `Draw` reads. -/
structure Texture where
  image_view : Handle
  sampler : Handle
deriving DecidableEq, Repr

/-- The accessors of `Framebuffer` that `Draw` reads, and its identity. -/
structure Framebuffer where
  handle : Handle
  width : Nat
  height : Nat
deriving DecidableEq, Repr

/-- A `vk::Viewport`; `F` stands for `float`. -/
structure Viewport (F : Type) where
  x : F
  y : F
  width : F
  height : F
  minDepth : F
  maxDepth : F
deriving DecidableEq, Repr

/-- A `vk::DescriptorImageInfo`. -/
structure DescriptorImageInfo where
  sampler : Handle
  imageView : Handle
  imageLayout : ImageLayout
deriving DecidableEq, Repr

/-- The members of `vk::WriteDescriptorSet` that `Draw` assigns; `pImageInfo` holds the pointed-to
record, `none` being the null pointer of a default-constructed write. -/
structure WriteDescriptorSet where
  dstSet : Handle
  dstBinding : Nat
  dstArrayElement : Nat
  descriptorCount : Nat
  descriptorType : DescriptorType
  pImageInfo : Option DescriptorImageInfo
deriving DecidableEq, Repr

/-- A `vk::PushConstantRange`. -/
structure PushConstantRange where
  stageFlags : ShaderStageFlagBits
  offset : Nat
  size : Nat
deriving DecidableEq, Repr

/-- The record `SsdoSampler::PushConstants`: a `vec4` followed by a `vec3`, as the constructor's
member initialisers and the shader's `PushConstants` block name them. -/
structure PushConstants (F : Type) where
  key_light : Vec4 F
  viewing_volume : Vec3 F
deriving DecidableEq, Repr

/-- The accessors of the stage's key light that `PushConstants` reads. -/
structure DirectionalLight (F : Type) where
  direction : Vec2 F
  dispersion : F
  intensity : F
deriving DecidableEq, Repr

/-- The accessors of the stage's viewing volume that `PushConstants` reads. -/
structure ViewingVolume (F : Type) where
  width : F
  height : F
  depth_range : F
deriving DecidableEq, Repr

/-- The accessors of `Stage` that `PushConstants` reads. -/
structure Stage (F : Type) where
  key_light : DirectionalLight F
  viewing_volume : ViewingVolume F
deriving DecidableEq, Repr

/-- The GLM constructor `vec4(vec2, float, float)`. -/
def vec4_of_vec2 {F : Type} (v : Vec2 F) (z w : F) : Vec4 F :=
  { x := v.x, y := v.y, z := z, w := w }

/-- The constructor `SsdoSampler::PushConstants::PushConstants(const Stage& stage)`. -/
def PushConstants.ofStage {F : Type} (stage : Stage F) : PushConstants F :=
  { key_light :=
      vec4_of_vec2 stage.key_light.direction stage.key_light.dispersion stage.key_light.intensity
    viewing_volume :=
      { x := stage.viewing_volume.width
        y := stage.viewing_volume.height
        z := stage.viewing_volume.depth_range } }

/-- The floats of a `PushConstants` record in member order. -/
def PushConstants.floats {F : Type} (pc : PushConstants F) : List F :=
  [pc.key_light.x, pc.key_light.y, pc.key_light.z, pc.key_light.w,
   pc.viewing_volume.x, pc.viewing_volume.y, pc.viewing_volume.z]

/-- The size of a `float` in bytes. -/
def sizeofFloat : Nat := 4

/-- Modelled from the spec: `sizeof(SsdoSampler::PushConstants)`.  The struct is declared in
escher/impl/ssdo_sampler.h, which is not under src/; the spec gives its wire layout as "4 floats
(key light ...) + 3 floats (viewing volume ...)", with no padding. -/
def sizeofPushConstants : Nat := 4 * sizeofFloat + 3 * sizeofFloat

/-- The push-constant range that `CreatePipeline` puts in the pipeline layout. -/
def CreatePipeline_push_constants : PushConstantRange :=
  { stageFlags := ShaderStageFlagBits.eFragment, offset := 0, size := sizeofPushConstants }

/-- Modelled from the spec: `FTL_DCHECK` comes from a header that is not under src/.  The spec
calls the condition "a contract violation checked by assertion, not a recoverable error": with the
assertion compiled in, a false condition aborts. -/
def FTL_DCHECK (condition : Bool) : Except String Unit :=
  if condition then Except.ok () else Except.error "Check failed"

/-- The condition asserted in the body of the constructor `SsdoSampler::SsdoSampler`;
`kNoiseSize` is declared in ssdo_sampler.h (not under src/) and is a parameter here. -/
def SsdoSampler.noiseSizeCheck (kNoiseSize : Nat) (noise_image : Image) : Bool :=
  noise_image.width == kNoiseSize && noise_image.height == kNoiseSize

/-- The body of the constructor `SsdoSampler::SsdoSampler`, which runs after the member
initialisers: the single `FTL_DCHECK`. -/
def SsdoSampler.ctorBody (kNoiseSize : Nat) (noise_image : Image) : Except String Unit :=
  FTL_DCHECK (SsdoSampler.noiseSizeCheck kNoiseSize noise_image)

/-! ### `SsdoSampler::Draw` -/

/-- The calls that reach `Draw`'s collaborators (the descriptor-set pool, the `vk::CommandBuffer`,
the `vk::Device` and the `CommandBuffer` wrapper), with the arguments that vary.  `setScissor` is
the `vk::CommandBuffer` call for the second dynamic state declared by `CreatePipeline`; `F` stands
for `float` and `CV` for `vk::ClearValue`. -/
inductive Cmd (F CV : Type) where
  | poolAllocate (count : Nat)
  | setViewport (firstViewport viewportCount : Nat) (viewport : Viewport F)
  | setScissor (firstScissor scissorCount : Nat)
  | updateDescriptorSets (writes : List WriteDescriptorSet) (copyCount : Nat)
  | beginRenderPass (render_pass : Handle) (framebuffer : Framebuffer) (clear_values : List CV)
  | bindPipeline (bindPoint : PipelineBindPoint) (pipeline : Handle)
  | bindDescriptorSets (bindPoint : PipelineBindPoint) (layout : Handle) (firstSet : Nat)
      (sets : List Handle) (dynamicOffsetCount : Nat)
  | pushConstants (layout : Handle) (stageFlags : ShaderStageFlagBits) (offset size : Nat)
      (values : PushConstants F)
  | drawMesh (mesh : Handle)
  | endRenderPass
deriving DecidableEq, Repr

namespace Cmd

/-- Recognises `BeginRenderPass`. -/
def isBeginRenderPass {F CV : Type} : Cmd F CV → Bool
  | beginRenderPass _ _ _ => true
  | _ => false

/-- Recognises `EndRenderPass`. -/
def isEndRenderPass {F CV : Type} : Cmd F CV → Bool
  | endRenderPass => true
  | _ => false

/-- Recognises `setScissor`. -/
def isSetScissor {F CV : Type} : Cmd F CV → Bool
  | setScissor _ _ => true
  | _ => false

/-- The stage, offset and size of a `pushConstants` call; `none` for every other call. -/
def pushRange {F CV : Type} : Cmd F CV → Option PushConstantRange
  | pushConstants _ stageFlags offset size _ =>
      some { stageFlags := stageFlags, offset := offset, size := size }
  | _ => none

end Cmd

/-- What a `DescriptorSetPool` allocation hands out. -/
structure DescriptorSetAllocation where
  sets : List Handle

/-- The accessor `get(index)` of an allocation. -/
def DescriptorSetAllocation.get (allocation : DescriptorSetAllocation) (index : Nat) : Handle :=
  allocation.sets.getD index 0

/-- The descriptor-set pool, an external collaborator: `Allocate count` is the allocation that
`Allocate(count, command_buffer)` returns. -/
structure DescriptorSetPool where
  Allocate : Nat → DescriptorSetAllocation

/-- The accessors of `ModelPipeline` that `Draw` reads. -/
structure ModelPipeline where
  pipeline : Handle
  pipeline_layout : Handle
deriving DecidableEq, Repr

/-- The members of `SsdoSampler` that `Draw` reads. -/
structure SsdoSampler where
  device_ : Handle
  pool_ : DescriptorSetPool
  full_screen_ : Handle
  noise_texture_ : Texture
  render_pass_ : Handle
  pipeline_ : ModelPipeline

/-- Appends one call to the record of calls made so far. -/
def record {F CV : Type} (log : List (Cmd F CV)) (c : Cmd F CV) : List (Cmd F CV) :=
  log ++ [c]

/-- A default-constructed `vk::Viewport`: every member zero. -/
def Viewport.default {F : Type} [Zero F] : Viewport F :=
  { x := 0, y := 0, width := 0, height := 0, minDepth := 0, maxDepth := 0 }

/-- A default-constructed `vk::WriteDescriptorSet`. -/
def WriteDescriptorSet.default : WriteDescriptorSet :=
  { dstSet := 0, dstBinding := 0, dstArrayElement := 0, descriptorCount := 0,
    descriptorType := DescriptorType.eSampler, pImageInfo := none }

/-- The method `SsdoSampler::Draw`, statement by statement; `log` is the record of calls made
before `Draw` runs and the result is the record after it.  The conversion of the framebuffer's
`uint32_t` width and height to `float` is the cast of `F`. -/
def SsdoSampler.Draw {F CV : Type} [Zero F] [NatCast F] (self : SsdoSampler)
    (framebuffer : Framebuffer) (depth_texture : Texture) (push_constants : PushConstants F)
    (clear_values : List CV) (log : List (Cmd F CV)) : List (Cmd F CV) :=
  let log := record log (Cmd.poolAllocate 1)
  let descriptor_set := (self.pool_.Allocate 1).get 0
  let viewport : Viewport F := Viewport.default
  let viewport := { viewport with width := (framebuffer.width : F) }
  let viewport := { viewport with height := (framebuffer.height : F) }
  let log := record log (Cmd.setViewport 0 1 viewport)
  -- Common to both image descriptors.
  let kUpdatedDescriptorCount := 2
  let writes0 := WriteDescriptorSet.default
  let writes1 := WriteDescriptorSet.default
  let writes1 := { writes1 with dstSet := descriptor_set }
  let writes0 := { writes0 with dstSet := writes1.dstSet }
  let writes1 := { writes1 with dstArrayElement := 0 }
  let writes0 := { writes0 with dstArrayElement := writes1.dstArrayElement }
  let writes1 := { writes1 with descriptorType := DescriptorType.eCombinedImageSampler }
  let writes0 := { writes0 with descriptorType := writes1.descriptorType }
  let writes1 := { writes1 with descriptorCount := 1 }
  let writes0 := { writes0 with descriptorCount := writes1.descriptorCount }
  -- Specific to depth texture.
  let depth_texture_info : DescriptorImageInfo :=
    { imageLayout := ImageLayout.eShaderReadOnlyOptimal
      imageView := depth_texture.image_view
      sampler := depth_texture.sampler }
  let writes0 := { writes0 with dstBinding := 0 }
  let writes0 := { writes0 with pImageInfo := some depth_texture_info }
  -- Specific to noise texture.
  let noise_texture_info : DescriptorImageInfo :=
    { imageLayout := ImageLayout.eShaderReadOnlyOptimal
      imageView := self.noise_texture_.image_view
      sampler := self.noise_texture_.sampler }
  let writes1 := { writes1 with dstBinding := 1 }
  let writes1 := { writes1 with pImageInfo := some noise_texture_info }
  let log := record log
    (Cmd.updateDescriptorSets ([writes0, writes1].take kUpdatedDescriptorCount) 0)
  let log := record log (Cmd.beginRenderPass self.render_pass_ framebuffer clear_values)
  let vk_pipeline_layout := self.pipeline_.pipeline_layout
  let log := record log (Cmd.bindPipeline PipelineBindPoint.eGraphics self.pipeline_.pipeline)
  let log := record log
    (Cmd.bindDescriptorSets PipelineBindPoint.eGraphics vk_pipeline_layout 0 [descriptor_set] 0)
  let log := record log
    (Cmd.pushConstants vk_pipeline_layout ShaderStageFlagBits.eFragment 0 sizeofPushConstants
      push_constants)
  let log := record log (Cmd.drawMesh self.full_screen_)
  record log Cmd.endRenderPass

/-! ## The fragment shader `g_fragment_src` (ssdo_sampler.cc)

The shader is read over an arbitrary ordered field `K` with a floor function (the rationals, the
reals).  The built-ins `cos` and `sin` and the two samplers are parameters: `depth_map uv` is
`texture(depth_map, uv).r` and `noise uv` is `texture(noise, uv).rg`. -/

namespace shader

variable {K : Type} [LinearOrderedField K] [FloorRing K]

/-- The constant `const float kPi = 3.14159265359`. -/
def kPi : K := 314159265359 / 100000000000

/-- The constant `const int kNoiseSize = 5`. -/
def kNoiseSize : Nat := 5

/-- The constant `const int kTapCount = 8`. -/
def kTapCount : Nat := 8

/-- The constant `const vec2 kSpirals = vec2(7.0, 5.0)`. -/
def kSpirals : Vec2 K := { x := 7, y := 5 }

/-- The constant `const float kSampleRadius = 16.0`. -/
def kSampleRadius : K := 16

/-- The GLSL built-in `fract(x) = x - floor(x)`. -/
def fract (x : K) : K := x - (⌊x⌋ : K)

/-- The GLSL built-in `clamp(x, minVal, maxVal) = min(max(x, minVal), maxVal)`. -/
def clamp (x minVal maxVal : K) : K := min (max x minVal) maxVal

/-- The shader function `sampleKeyIllumination`. -/
def sampleKeyIllumination (pushed : PushConstants K) (depth_map : Vec2 K → K) (cos sin : K → K)
    (fragment_uv : Vec2 K) (fragment_z alpha : K) (seed : Vec2 K) : K :=
  let key_light_dispersion := pushed.key_light.z
  let key_light0 : Vec2 K :=
    { x := pushed.key_light.x - key_light_dispersion / 2
      y := pushed.key_light.y - key_light_dispersion / 2 }
  let theta := key_light0.x + fract (seed.x + alpha * (kSpirals : Vec2 K).x) * key_light_dispersion
  let radius := alpha * kSampleRadius
  let tap_delta_uv : Vec2 K :=
    { x := radius * cos theta / pushed.viewing_volume.x
      y := radius * sin theta / pushed.viewing_volume.y }
  let tap_depth_uv :=
    depth_map { x := fragment_uv.x + tap_delta_uv.x, y := fragment_uv.y + tap_delta_uv.y }
  let tap_z := tap_depth_uv * -pushed.viewing_volume.z
  1 - max 0 ((tap_z - fragment_z) / radius)

/-- The shader function `sampleFillIllumination`. -/
def sampleFillIllumination (pushed : PushConstants K) (depth_map : Vec2 K → K) (cos sin : K → K)
    (fragment_uv : Vec2 K) (fragment_z alpha : K) (seed : Vec2 K) : K :=
  let theta := 2 * kPi * (seed.x + alpha * (kSpirals : Vec2 K).x)
  let radius := alpha * kSampleRadius
  let tap_delta_uv : Vec2 K :=
    { x := radius * cos theta / pushed.viewing_volume.x
      y := radius * sin theta / pushed.viewing_volume.y }
  let tap_depth_uv :=
    depth_map { x := fragment_uv.x + tap_delta_uv.x, y := fragment_uv.y + tap_delta_uv.y }
  let tap_z := tap_depth_uv * -pushed.viewing_volume.z
  1 - max 0 ((tap_z - fragment_z) / radius)

/-- The value of `alpha` in iteration `i` of the loop of `main`. -/
def tapAlpha (i : Nat) : K := ((i : K) + 1 / 2) / (kTapCount : K)

/-- One iteration of the loop of `main`: the two `L +=` statements, in order. -/
def tapStep (pushed : PushConstants K) (depth_map : Vec2 K → K) (cos sin : K → K)
    (fragment_uv : Vec2 K) (fragment_z : K) (seed : Vec2 K) (L : K) (i : Nat) : K :=
  let key_light_intensity := pushed.key_light.w
  let fill_light_intensity := 1 - key_light_intensity
  let alpha : K := tapAlpha i
  let L := L + key_light_intensity *
    sampleKeyIllumination pushed depth_map cos sin fragment_uv fragment_z alpha seed
  let L := L + fill_light_intensity *
    sampleFillIllumination pushed depth_map cos sin fragment_uv fragment_z alpha seed
  L

/-- The seed that `main` reads from the noise texture. -/
def mainSeed (noise : Vec2 K → Vec2 K) (gl_FragCoord : Vec2 K) : Vec2 K :=
  noise { x := fract (gl_FragCoord.x / (kNoiseSize : K))
          y := fract (gl_FragCoord.y / (kNoiseSize : K)) }

/-- The depth of the fragment that `main` computes. -/
def mainFragmentZ (pushed : PushConstants K) (depth_map : Vec2 K → K) (fragment_uv : Vec2 K) : K :=
  let viewing_volume_depth_range := pushed.viewing_volume.z
  depth_map fragment_uv * -viewing_volume_depth_range

/-- The shader's `main`: the value written to `outColor` for the fragment at `gl_FragCoord` with
interpolated texture coordinate `fragment_uv`. -/
def main (pushed : PushConstants K) (depth_map : Vec2 K → K) (noise : Vec2 K → Vec2 K)
    (cos sin : K → K) (gl_FragCoord fragment_uv : Vec2 K) : Vec4 K :=
  let seed := mainSeed noise gl_FragCoord
  let fragment_z := mainFragmentZ pushed depth_map fragment_uv
  let L : K := 0
  let L := (List.range kTapCount).foldl
    (tapStep pushed depth_map cos sin fragment_uv fragment_z seed) L
  let L := clamp (L / (kTapCount : K)) 0 1
  { x := L, y := 0, z := 0, w := 1 }

end shader

end impl
end escher

namespace escher
namespace impl

/-! ## Theorems about `PipelineSpec` -/

/-- Characterisation of `operator==` on `PipelineSpec`, shared by the results below. -/
theorem PipelineSpec.opEq_iff (a b : PipelineSpec) :
    PipelineSpec.opEq a b = true ↔
      a.hash_ = b.hash_ ∧ a.type_ = b.type_ ∧ a.data_ = b.data_ := by
  simp [PipelineSpec.opEq, PipelineSpec.hash, PipelineSpec.type, PipelineSpec.data, and_assoc]

/-- C1: for any two `PipelineSpec` values, `a == b` holds exactly when the hash, the type and the
data are all equal; and when the hashes are equal but the type or the data differ (a hash
collision between different specs), `a == b` is false and `a != b` is true. -/
theorem PipelineSpec.opEq_exact (a b : PipelineSpec) :
    (PipelineSpec.opEq a b = true ↔
        a.hash_ = b.hash_ ∧ a.type_ = b.type_ ∧ a.data_ = b.data_) ∧
      (a.hash_ = b.hash_ → (a.type_ ≠ b.type_ ∨ a.data_ ≠ b.data_) →
        PipelineSpec.opEq a b = false ∧ PipelineSpec.opNe a b = true) := by
  refine ⟨PipelineSpec.opEq_iff a b, ?_⟩
  intro _ hdiff
  have hne : PipelineSpec.opEq a b = false := by
    rw [← Bool.not_eq_true, PipelineSpec.opEq_iff]
    rintro ⟨_, ht, hd⟩
    rcases hdiff with h | h
    · exact h ht
    · exact h hd
  exact ⟨hne, by simp [PipelineSpec.opNe, hne]⟩

/-- A hash collision between two different specs: equal hashes, different types. -/
theorem PipelineSpec.opEq_exact_witness :
    PipelineSpec.opEq ⟨1, [3], 7⟩ ⟨2, [3], 7⟩ = false ∧
      PipelineSpec.opNe ⟨1, [3], 7⟩ ⟨2, [3], 7⟩ = true :=
  (PipelineSpec.opEq_exact ⟨1, [3], 7⟩ ⟨2, [3], 7⟩).2 rfl (Or.inl (by decide))

/-- C2: `PipelineSpec` equality is consistent with `PipelineSpec::Hash`: equal specs have equal
hashes. -/
theorem PipelineSpec.opEq_imp_Hash_eq (a b : PipelineSpec)
    (h : PipelineSpec.opEq a b = true) : PipelineSpec.Hash a = PipelineSpec.Hash b := by
  exact ((PipelineSpec.opEq_iff a b).1 h).1

/-- Two equal specs and their equal hashes. -/
theorem PipelineSpec.opEq_imp_Hash_eq_witness :
    PipelineSpec.opEq ⟨4, [1, 2], 9⟩ ⟨4, [1, 2], 9⟩ = true ∧
      PipelineSpec.Hash ⟨4, [1, 2], 9⟩ = PipelineSpec.Hash ⟨4, [1, 2], 9⟩ :=
  ⟨by decide, PipelineSpec.opEq_imp_Hash_eq ⟨4, [1, 2], 9⟩ ⟨4, [1, 2], 9⟩ (by decide)⟩

/-- C3: `operator==` on `PipelineSpec` is reflexive, symmetric and transitive. -/
theorem PipelineSpec.opEq_equivalence (a b c : PipelineSpec) :
    PipelineSpec.opEq a a = true ∧
      (PipelineSpec.opEq a b = true → PipelineSpec.opEq b a = true) ∧
      (PipelineSpec.opEq a b = true → PipelineSpec.opEq b c = true →
        PipelineSpec.opEq a c = true) := by
  refine ⟨(PipelineSpec.opEq_iff a a).2 ⟨rfl, rfl, rfl⟩, ?_, ?_⟩
  · intro hab
    obtain ⟨h1, h2, h3⟩ := (PipelineSpec.opEq_iff a b).1 hab
    exact (PipelineSpec.opEq_iff b a).2 ⟨h1.symm, h2.symm, h3.symm⟩
  · intro hab hbc
    obtain ⟨h1, h2, h3⟩ := (PipelineSpec.opEq_iff a b).1 hab
    obtain ⟨k1, k2, k3⟩ := (PipelineSpec.opEq_iff b c).1 hbc
    exact (PipelineSpec.opEq_iff a c).2 ⟨h1.trans k1, h2.trans k2, h3.trans k3⟩

/-- Symmetry and transitivity used on three equal specs. -/
theorem PipelineSpec.opEq_equivalence_witness :
    PipelineSpec.opEq ⟨4, [1, 2], 9⟩ ⟨4, [1, 2], 9⟩ = true ∧
      PipelineSpec.opEq ⟨4, [1, 2], 9⟩ ⟨4, [1, 2], 9⟩ = true :=
  ⟨(PipelineSpec.opEq_equivalence ⟨4, [1, 2], 9⟩ ⟨4, [1, 2], 9⟩ ⟨4, [1, 2], 9⟩).2.1 (by decide),
   (PipelineSpec.opEq_equivalence ⟨4, [1, 2], 9⟩ ⟨4, [1, 2], 9⟩ ⟨4, [1, 2], 9⟩).2.2
     (by decide) (by decide)⟩

/-- C4: two `PipelineSpec` values constructed separately from the same type and the same bytes
have equal stored hashes, equal `Hash` values, and compare equal with `operator==` (and not
unequal with `operator!=`): the stored hash depends on `(type, data)` only. -/
theorem PipelineSpec.construct_roundtrip (combine : Nat → List Nat → Nat)
    (type1 type2 : Nat) (data1 data2 : List Nat) (htype : type1 = type2) (hdata : data1 = data2) :
    (PipelineSpec.construct combine type1 data1).hash =
        (PipelineSpec.construct combine type2 data2).hash ∧
      PipelineSpec.Hash (PipelineSpec.construct combine type1 data1) =
        PipelineSpec.Hash (PipelineSpec.construct combine type2 data2) ∧
      PipelineSpec.opEq (PipelineSpec.construct combine type1 data1)
        (PipelineSpec.construct combine type2 data2) = true ∧
      PipelineSpec.opNe (PipelineSpec.construct combine type1 data1)
        (PipelineSpec.construct combine type2 data2) = false := by
  subst htype hdata
  have h : PipelineSpec.opEq (PipelineSpec.construct combine type1 data1)
      (PipelineSpec.construct combine type1 data1) = true :=
    (PipelineSpec.opEq_iff _ _).2 ⟨rfl, rfl, rfl⟩
  exact ⟨rfl, rfl, h, by simp [PipelineSpec.opNe, h]⟩

/-- Two constructions from type 3 and bytes 1, 2 with a sample combining function. -/
theorem PipelineSpec.construct_roundtrip_witness :
    PipelineSpec.opEq
        (PipelineSpec.construct (fun t d => t + d.sum) 3 [1, 2])
        (PipelineSpec.construct (fun t d => t + d.sum) 3 ([1] ++ [2])) = true :=
  (PipelineSpec.construct_roundtrip (fun t d => t + d.sum) 3 3 [1, 2] ([1] ++ [2])
    rfl rfl).2.2.1

/-! ## Theorems about `ModelPipelineSpec` -/

/-- Characterisation of `operator==` on `ModelPipelineSpec`, shared by the results below. -/
theorem ModelPipelineSpec.modelEq_iff (s1 s2 : ModelPipelineSpec) :
    ModelPipelineSpec.opEq s1 s2 = true ↔
      MeshSpec.opEq s1.mesh_spec s2.mesh_spec = true ∧
        s1.use_depth_prepass = s2.use_depth_prepass := by
  simp [ModelPipelineSpec.opEq]

/-- C5: `s1 == s2` holds if and only if the mesh specs compare equal and the prepass flags are
equal; two specs that differ only in `use_depth_prepass` compare unequal, and `operator!=`
returns true for them. -/
theorem ModelPipelineSpec.modelEq_exact (s1 s2 : ModelPipelineSpec) :
    (ModelPipelineSpec.opEq s1 s2 = true ↔
        MeshSpec.opEq s1.mesh_spec s2.mesh_spec = true ∧
          s1.use_depth_prepass = s2.use_depth_prepass) ∧
      (s1.mesh_spec = s2.mesh_spec → s1.use_depth_prepass ≠ s2.use_depth_prepass →
        ModelPipelineSpec.opEq s1 s2 = false ∧ ModelPipelineSpec.opNe s1 s2 = true) := by
  refine ⟨ModelPipelineSpec.modelEq_iff s1 s2, ?_⟩
  intro _ hdiff
  have hne : ModelPipelineSpec.opEq s1 s2 = false := by
    rw [← Bool.not_eq_true, ModelPipelineSpec.modelEq_iff]
    exact fun h => hdiff h.2
  exact ⟨hne, by simp [ModelPipelineSpec.opNe, hne]⟩

/-- Same mesh flags, different prepass flags. -/
theorem ModelPipelineSpec.modelEq_exact_witness :
    ModelPipelineSpec.opEq ⟨⟨5⟩, false⟩ ⟨⟨5⟩, true⟩ = false ∧
      ModelPipelineSpec.opNe ⟨⟨5⟩, false⟩ ⟨⟨5⟩, true⟩ = true :=
  (ModelPipelineSpec.modelEq_exact ⟨⟨5⟩, false⟩ ⟨⟨5⟩, true⟩).2 rfl (by decide)

/-- C6: two `ModelPipelineSpec` values with identical mesh specs and identical prepass flags
compare equal and have the same `Hash`. -/
theorem ModelPipelineSpec.same_fields_opEq_Hash (s1 s2 : ModelPipelineSpec)
    (hmesh : s1.mesh_spec = s2.mesh_spec)
    (hprepass : s1.use_depth_prepass = s2.use_depth_prepass) :
    ModelPipelineSpec.opEq s1 s2 = true ∧
      ModelPipelineSpec.Hash s1 = ModelPipelineSpec.Hash s2 := by
  refine ⟨?_, ?_⟩
  · rw [ModelPipelineSpec.modelEq_iff]
    exact ⟨by simp [MeshSpec.opEq, hmesh], hprepass⟩
  · simp [ModelPipelineSpec.Hash, hmesh, hprepass]

/-- Two specs with mesh flags 6 and no prepass. -/
theorem ModelPipelineSpec.same_fields_opEq_Hash_witness :
    ModelPipelineSpec.opEq ⟨⟨6⟩, false⟩ ⟨⟨6⟩, false⟩ = true ∧
      ModelPipelineSpec.Hash ⟨⟨6⟩, false⟩ = ModelPipelineSpec.Hash ⟨⟨6⟩, false⟩ :=
  ModelPipelineSpec.same_fields_opEq_Hash ⟨⟨6⟩, false⟩ ⟨⟨6⟩, false⟩ rfl rfl

/-- The hash in closed form: the `uint32_t` sum of the mesh flags and the prepass bit. -/
theorem ModelPipelineSpec.Hash_eq_mod (spec : ModelPipelineSpec) :
    ModelPipelineSpec.Hash spec =
      (spec.mesh_spec.flags + ModelPipelineSpec.boolToU32 spec.use_depth_prepass) % 2 ^ 32 := by
  unfold ModelPipelineSpec.Hash
  exact (Nat.add_mod _ _ _).symm

/-- C12: the `ModelPipelineSpec` hash is the `uint32_t` sum of the 32-bit mesh-flags encoding and
the boolean (`true` is 1, `false` is 0), which is the plain sum whenever that fits in 32 bits.  It
is not injective: mesh flags 5 without prepass and mesh flags 4 with prepass both hash to 5,
although `operator==` reports them unequal. -/
theorem ModelPipelineSpec.Hash_additive_collision :
    (∀ spec : ModelPipelineSpec,
        ModelPipelineSpec.Hash spec =
          (spec.mesh_spec.flags % 2 ^ 32 +
            ModelPipelineSpec.boolToU32 spec.use_depth_prepass) % 2 ^ 32) ∧
      (∀ spec : ModelPipelineSpec,
        spec.mesh_spec.flags + ModelPipelineSpec.boolToU32 spec.use_depth_prepass < 2 ^ 32 →
          ModelPipelineSpec.Hash spec =
            spec.mesh_spec.flags + ModelPipelineSpec.boolToU32 spec.use_depth_prepass) ∧
      ModelPipelineSpec.boolToU32 true = 1 ∧
      ModelPipelineSpec.boolToU32 false = 0 ∧
      ModelPipelineSpec.Hash ⟨⟨5⟩, false⟩ = 5 ∧
      ModelPipelineSpec.Hash ⟨⟨4⟩, true⟩ = 5 ∧
      ModelPipelineSpec.opEq ⟨⟨5⟩, false⟩ ⟨⟨4⟩, true⟩ = false ∧
      ModelPipelineSpec.opNe ⟨⟨5⟩, false⟩ ⟨⟨4⟩, true⟩ = true ∧
      ¬ Function.Injective ModelPipelineSpec.Hash := by
  refine ⟨?_, ?_, rfl, rfl, by decide, by decide, by decide, by decide, ?_⟩
  · intro spec
    unfold ModelPipelineSpec.Hash
    cases spec.use_depth_prepass <;> norm_num [ModelPipelineSpec.boolToU32]
  · intro spec hfit
    rw [ModelPipelineSpec.Hash_eq_mod, Nat.mod_eq_of_lt hfit]
  · intro hinj
    have hcollide : ModelPipelineSpec.Hash ⟨⟨5⟩, false⟩ = ModelPipelineSpec.Hash ⟨⟨4⟩, true⟩ := by
      decide
    have hsame := hinj hcollide
    exact absurd hsame (by decide)

/-- The plain sum for mesh flags 5 without prepass, which fits in 32 bits. -/
theorem ModelPipelineSpec.Hash_additive_collision_witness :
    ModelPipelineSpec.Hash ⟨⟨5⟩, false⟩ = 5 + ModelPipelineSpec.boolToU32 false :=
  ModelPipelineSpec.Hash_additive_collision.2.1 ⟨⟨5⟩, false⟩ (by decide)

/-- C13: the `ModelPipelineSpec` hash is computed in unsigned 32-bit arithmetic,
`(flags + (use_depth_prepass ? 1 : 0)) mod 2 ^ 32`, so it is always below `2 ^ 32` (mesh flags
`0xFFFFFFFF` with prepass hash to 0); two specs with the same mesh flags that differ only in
`use_depth_prepass` have different hashes, one being the other plus 1 modulo `2 ^ 32`. -/
theorem ModelPipelineSpec.Hash_u32_prepass_distinct :
    (∀ spec : ModelPipelineSpec,
        ModelPipelineSpec.Hash spec =
          (spec.mesh_spec.flags + (if spec.use_depth_prepass then 1 else 0)) % 2 ^ 32) ∧
      (∀ spec : ModelPipelineSpec, ModelPipelineSpec.Hash spec < 2 ^ 32) ∧
      ModelPipelineSpec.Hash ⟨⟨0xFFFFFFFF⟩, true⟩ = 0 ∧
      (∀ s1 s2 : ModelPipelineSpec, s1.mesh_spec = s2.mesh_spec →
        s1.use_depth_prepass ≠ s2.use_depth_prepass →
          ModelPipelineSpec.Hash s1 ≠ ModelPipelineSpec.Hash s2 ∧
            (ModelPipelineSpec.Hash s1 = (ModelPipelineSpec.Hash s2 + 1) % 2 ^ 32 ∨
              ModelPipelineSpec.Hash s2 = (ModelPipelineSpec.Hash s1 + 1) % 2 ^ 32)) := by
  refine ⟨?_, ?_, by decide, ?_⟩
  · intro spec
    rw [ModelPipelineSpec.Hash_eq_mod]
    rfl
  · intro spec
    rw [ModelPipelineSpec.Hash_eq_mod]
    exact Nat.mod_lt _ (by norm_num)
  · intro s1 s2 hmesh hdiff
    rw [ModelPipelineSpec.Hash_eq_mod, ModelPipelineSpec.Hash_eq_mod, hmesh]
    cases h1 : s1.use_depth_prepass <;> cases h2 : s2.use_depth_prepass
    · exact absurd (h1.trans h2.symm) hdiff
    · simp only [ModelPipelineSpec.boolToU32]
      norm_num
      omega
    · simp only [ModelPipelineSpec.boolToU32]
      norm_num
      omega
    · exact absurd (h1.trans h2.symm) hdiff

/-- Mesh flags `0xFFFFFFFF` with and without prepass: hashes 0 and `0xFFFFFFFF`. -/
theorem ModelPipelineSpec.Hash_u32_prepass_distinct_witness :
    ModelPipelineSpec.Hash ⟨⟨0xFFFFFFFF⟩, true⟩ ≠ ModelPipelineSpec.Hash ⟨⟨0xFFFFFFFF⟩, false⟩ ∧
      (ModelPipelineSpec.Hash ⟨⟨0xFFFFFFFF⟩, true⟩ =
          (ModelPipelineSpec.Hash ⟨⟨0xFFFFFFFF⟩, false⟩ + 1) % 2 ^ 32 ∨
        ModelPipelineSpec.Hash ⟨⟨0xFFFFFFFF⟩, false⟩ =
          (ModelPipelineSpec.Hash ⟨⟨0xFFFFFFFF⟩, true⟩ + 1) % 2 ^ 32) :=
  ModelPipelineSpec.Hash_u32_prepass_distinct.2.2.2 ⟨⟨0xFFFFFFFF⟩, true⟩ ⟨⟨0xFFFFFFFF⟩, false⟩
    rfl (by decide)

/-! ## Theorems about `SsdoSampler` -/

/-- C7: the constructor's size check fails for every noise image whose width or height differs
from `kNoiseSize`, and the assertion then aborts construction; the check passes, and the
constructor body completes, only for a `kNoiseSize` by `kNoiseSize` image. -/
theorem SsdoSampler.noise_size_validation (kNoiseSize : Nat) (noise_image : Image) :
    ((noise_image.width ≠ kNoiseSize ∨ noise_image.height ≠ kNoiseSize) →
        SsdoSampler.noiseSizeCheck kNoiseSize noise_image = false ∧
          SsdoSampler.ctorBody kNoiseSize noise_image = Except.error "Check failed") ∧
      (SsdoSampler.noiseSizeCheck kNoiseSize noise_image = true ↔
        noise_image.width = kNoiseSize ∧ noise_image.height = kNoiseSize) ∧
      (SsdoSampler.ctorBody kNoiseSize noise_image = Except.ok () ↔
        noise_image.width = kNoiseSize ∧ noise_image.height = kNoiseSize) := by
  have hiff : SsdoSampler.noiseSizeCheck kNoiseSize noise_image = true ↔
      noise_image.width = kNoiseSize ∧ noise_image.height = kNoiseSize := by
    simp [SsdoSampler.noiseSizeCheck]
  refine ⟨?_, hiff, ?_⟩
  · intro hdiff
    have hfalse : SsdoSampler.noiseSizeCheck kNoiseSize noise_image = false := by
      rw [← Bool.not_eq_true, hiff]
      rintro ⟨hw, hh⟩
      rcases hdiff with h | h
      · exact h hw
      · exact h hh
    exact ⟨hfalse, by simp [SsdoSampler.ctorBody, FTL_DCHECK, hfalse]⟩
  · rw [← hiff]
    cases hc : SsdoSampler.noiseSizeCheck kNoiseSize noise_image <;>
      simp [SsdoSampler.ctorBody, FTL_DCHECK, hc]

/-- A 4 by 5 noise image against `kNoiseSize = 5`. -/
theorem SsdoSampler.noise_size_validation_witness :
    SsdoSampler.noiseSizeCheck 5 ⟨4, 5⟩ = false ∧
      SsdoSampler.ctorBody 5 ⟨4, 5⟩ = Except.error "Check failed" :=
  (SsdoSampler.noise_size_validation 5 ⟨4, 5⟩).1 (Or.inl (by decide))

/-- C8: every call of `Draw` issues, after whatever was recorded before it, exactly these nine
calls in this order: allocate one descriptor set; set the viewport at offset (0, 0) with the
framebuffer's width and height; write two combined-image-sampler descriptors (binding 0 the depth
texture, binding 1 the sampler's noise texture, both in shader-read-only layout); begin the render
pass on the target framebuffer with the supplied clear values; bind the cached pipeline; bind the
descriptor set; push the `PushConstants` record to the fragment stage at offset 0; draw the
full-screen mesh; end the render pass.  One begin and one end are issued, and no scissor is
set. -/
theorem SsdoSampler.Draw_calls {F CV : Type} [Zero F] [NatCast F] (self : SsdoSampler)
    (framebuffer : Framebuffer) (depth_texture : Texture) (push_constants : PushConstants F)
    (clear_values : List CV) (log : List (Cmd F CV)) :
    SsdoSampler.Draw self framebuffer depth_texture push_constants clear_values log =
        log ++
          [Cmd.poolAllocate 1,
           Cmd.setViewport 0 1
             { x := 0, y := 0, width := (framebuffer.width : F),
               height := (framebuffer.height : F), minDepth := 0, maxDepth := 0 },
           Cmd.updateDescriptorSets
             [{ dstSet := (self.pool_.Allocate 1).get 0, dstBinding := 0, dstArrayElement := 0,
                descriptorCount := 1, descriptorType := DescriptorType.eCombinedImageSampler,
                pImageInfo := some
                  { sampler := depth_texture.sampler, imageView := depth_texture.image_view,
                    imageLayout := ImageLayout.eShaderReadOnlyOptimal } },
              { dstSet := (self.pool_.Allocate 1).get 0, dstBinding := 1, dstArrayElement := 0,
                descriptorCount := 1, descriptorType := DescriptorType.eCombinedImageSampler,
                pImageInfo := some
                  { sampler := self.noise_texture_.sampler,
                    imageView := self.noise_texture_.image_view,
                    imageLayout := ImageLayout.eShaderReadOnlyOptimal } }] 0,
           Cmd.beginRenderPass self.render_pass_ framebuffer clear_values,
           Cmd.bindPipeline PipelineBindPoint.eGraphics self.pipeline_.pipeline,
           Cmd.bindDescriptorSets PipelineBindPoint.eGraphics self.pipeline_.pipeline_layout 0
             [(self.pool_.Allocate 1).get 0] 0,
           Cmd.pushConstants self.pipeline_.pipeline_layout ShaderStageFlagBits.eFragment 0
             sizeofPushConstants push_constants,
           Cmd.drawMesh self.full_screen_,
           Cmd.endRenderPass] ∧
      (SsdoSampler.Draw self framebuffer depth_texture push_constants clear_values
          ([] : List (Cmd F CV))).countP Cmd.isBeginRenderPass = 1 ∧
      (SsdoSampler.Draw self framebuffer depth_texture push_constants clear_values
          ([] : List (Cmd F CV))).countP Cmd.isEndRenderPass = 1 ∧
      (SsdoSampler.Draw self framebuffer depth_texture push_constants clear_values
          ([] : List (Cmd F CV))).countP Cmd.isSetScissor = 0 := by
  refine ⟨?_, ?_, ?_, ?_⟩
  · simp [SsdoSampler.Draw, record, Viewport.default, WriteDescriptorSet.default]
  · simp [SsdoSampler.Draw, record, List.countP_cons, Cmd.isBeginRenderPass]
  · simp [SsdoSampler.Draw, record, List.countP_cons, Cmd.isEndRenderPass]
  · simp [SsdoSampler.Draw, record, List.countP_cons, Cmd.isSetScissor]

/-- C9: for every stage, `PushConstants(stage)` holds exactly seven floats in this order: the key
light's two direction angles, its dispersion and its intensity, then the viewing volume's width,
height and depth range; that is 28 bytes at 4 bytes a float.  The push-constant range of the
pipeline layout and the range pushed by `Draw` agree: fragment stage, offset 0, size
`sizeof(PushConstants)`. -/
theorem PushConstants.layout_and_range {F CV : Type} [Zero F] [NatCast F] (stage : Stage F)
    (self : SsdoSampler) (framebuffer : Framebuffer) (depth_texture : Texture)
    (push_constants : PushConstants F) (clear_values : List CV) :
    (PushConstants.ofStage stage).key_light =
        { x := stage.key_light.direction.x, y := stage.key_light.direction.y,
          z := stage.key_light.dispersion, w := stage.key_light.intensity } ∧
      (PushConstants.ofStage stage).viewing_volume =
        { x := stage.viewing_volume.width, y := stage.viewing_volume.height,
          z := stage.viewing_volume.depth_range } ∧
      (PushConstants.ofStage stage).floats =
        [stage.key_light.direction.x, stage.key_light.direction.y, stage.key_light.dispersion,
         stage.key_light.intensity, stage.viewing_volume.width, stage.viewing_volume.height,
         stage.viewing_volume.depth_range] ∧
      (PushConstants.ofStage stage).floats.length = 7 ∧
      sizeofPushConstants = (PushConstants.ofStage stage).floats.length * sizeofFloat ∧
      sizeofFloat = 4 ∧
      sizeofPushConstants = 28 ∧
      CreatePipeline_push_constants =
        { stageFlags := ShaderStageFlagBits.eFragment, offset := 0,
          size := sizeofPushConstants } ∧
      (SsdoSampler.Draw self framebuffer depth_texture push_constants clear_values
          ([] : List (Cmd F CV))).filterMap Cmd.pushRange = [CreatePipeline_push_constants] := by
  refine ⟨rfl, rfl, rfl, rfl, rfl, rfl, rfl, rfl, ?_⟩
  simp [SsdoSampler.Draw, record, List.filterMap_cons, Cmd.pushRange,
    CreatePipeline_push_constants]

/-! ## Theorems about the fragment shader -/

/-- The loop of `main` run for `n` taps accumulates the sum of the weighted key and fill
samples. -/
theorem shader.foldl_tapStep {K : Type} [LinearOrderedField K] [FloorRing K]
    (pushed : PushConstants K) (depth_map : Vec2 K → K) (cos sin : K → K)
    (fragment_uv : Vec2 K) (fragment_z : K) (seed : Vec2 K) (n : Nat) :
    (List.range n).foldl (shader.tapStep pushed depth_map cos sin fragment_uv fragment_z seed) 0 =
      ∑ i ∈ Finset.range n,
        (pushed.key_light.w *
            shader.sampleKeyIllumination pushed depth_map cos sin fragment_uv fragment_z
              (shader.tapAlpha i) seed +
          (1 - pushed.key_light.w) *
            shader.sampleFillIllumination pushed depth_map cos sin fragment_uv fragment_z
              (shader.tapAlpha i) seed) := by
  induction n with
  | zero => simp
  | succ n ih =>
    rw [List.range_succ, List.foldl_append, ih, Finset.sum_range_succ]
    simp only [List.foldl_cons, List.foldl_nil, shader.tapStep]
    ring

/-- The GLSL `clamp` to `[0, 1]` lands in `[0, 1]`. -/
theorem shader.clamp_zero_one {K : Type} [LinearOrderedField K] [FloorRing K] (x : K) :
    0 ≤ shader.clamp x 0 1 ∧ shader.clamp x 0 1 ≤ 1 := by
  unfold shader.clamp
  exact ⟨le_min (le_max_right x 0) zero_le_one, min_le_right _ _⟩

/-- C10: over exact arithmetic, for every pixel, depth map, noise texture and push-constant
record, `main` writes `outColor = (L, 0, 0, 1)`, where `L` is the sum over the 8 taps of
`key_intensity * keySample + (1 - key_intensity) * fillSample`, divided by 8 and clamped to
`[0, 1]`, that is `min (max (sum / 8) 0) 1`; hence `0 ≤ L ≤ 1`.  The samples are taken at the
fragment depth `texture(depth_map, fragment_uv).r * -depth_range`, at `alpha = (i + 0.5) / 8`, with
the seed read from the noise texture at `fract(gl_FragCoord.xy / 5)`. -/
theorem shader.main_output {K : Type} [LinearOrderedField K] [FloorRing K]
    (pushed : PushConstants K) (depth_map : Vec2 K → K) (noise : Vec2 K → Vec2 K)
    (cos sin : K → K) (gl_FragCoord fragment_uv : Vec2 K) :
    shader.main pushed depth_map noise cos sin gl_FragCoord fragment_uv =
        { x := min (max
            ((∑ i ∈ Finset.range 8,
                (pushed.key_light.w *
                    shader.sampleKeyIllumination pushed depth_map cos sin fragment_uv
                      (depth_map fragment_uv * -pushed.viewing_volume.z)
                      (((i : K) + 1 / 2) / 8)
                      (noise { x := gl_FragCoord.x / 5 - (⌊gl_FragCoord.x / 5⌋ : K)
                               y := gl_FragCoord.y / 5 - (⌊gl_FragCoord.y / 5⌋ : K) }) +
                  (1 - pushed.key_light.w) *
                    shader.sampleFillIllumination pushed depth_map cos sin fragment_uv
                      (depth_map fragment_uv * -pushed.viewing_volume.z)
                      (((i : K) + 1 / 2) / 8)
                      (noise { x := gl_FragCoord.x / 5 - (⌊gl_FragCoord.x / 5⌋ : K)
                               y := gl_FragCoord.y / 5 - (⌊gl_FragCoord.y / 5⌋ : K) }))) / 8)
            0) 1
          y := 0, z := 0, w := 1 } ∧
      0 ≤ (shader.main pushed depth_map noise cos sin gl_FragCoord fragment_uv).x ∧
      (shader.main pushed depth_map noise cos sin gl_FragCoord fragment_uv).x ≤ 1 := by
  have hmain : shader.main pushed depth_map noise cos sin gl_FragCoord fragment_uv =
      { x := shader.clamp
          ((∑ i ∈ Finset.range 8,
              (pushed.key_light.w *
                  shader.sampleKeyIllumination pushed depth_map cos sin fragment_uv
                    (shader.mainFragmentZ pushed depth_map fragment_uv)
                    (shader.tapAlpha i) (shader.mainSeed noise gl_FragCoord) +
                (1 - pushed.key_light.w) *
                  shader.sampleFillIllumination pushed depth_map cos sin fragment_uv
                    (shader.mainFragmentZ pushed depth_map fragment_uv)
                    (shader.tapAlpha i) (shader.mainSeed noise gl_FragCoord))) / 8) 0 1
        y := 0, z := 0, w := 1 } := by
    simp only [shader.main, shader.foldl_tapStep, shader.kTapCount, Nat.cast_ofNat]
  refine ⟨?_, ?_, ?_⟩
  · rw [hmain]
    simp only [shader.clamp, shader.tapAlpha, shader.kTapCount, shader.mainFragmentZ,
      shader.mainSeed, shader.fract, shader.kNoiseSize, Nat.cast_ofNat]
  · rw [hmain]
    exact (shader.clamp_zero_one _).1
  · rw [hmain]
    exact (shader.clamp_zero_one _).2

/-- Every tap has a positive `alpha`, hence a positive sampling radius `alpha * 16`. -/
theorem shader.tap_radius_pos {K : Type} [LinearOrderedField K] [FloorRing K] (i : Nat) :
    0 < (shader.tapAlpha i : K) * shader.kSampleRadius := by
  unfold shader.tapAlpha shader.kSampleRadius shader.kTapCount
  positivity

/-- Over a flat depth map a tap lies at the depth of the fragment. -/
theorem shader.flat_tap_depth {K : Type} [LinearOrderedField K] [FloorRing K]
    (pushed : PushConstants K) (depth_map : Vec2 K → K) (d : K)
    (hflat : ∀ uv, depth_map uv = d) (fragment_uv tap_uv : Vec2 K) :
    depth_map tap_uv * -pushed.viewing_volume.z -
      shader.mainFragmentZ pushed depth_map fragment_uv = 0 := by
  simp [shader.mainFragmentZ, hflat]

/-- Over a flat depth map every key sample is 1. -/
theorem shader.flat_key_sample {K : Type} [LinearOrderedField K] [FloorRing K]
    (pushed : PushConstants K) (depth_map : Vec2 K → K) (cos sin : K → K) (d : K)
    (hflat : ∀ uv, depth_map uv = d) (fragment_uv : Vec2 K) (alpha : K) (seed : Vec2 K) :
    shader.sampleKeyIllumination pushed depth_map cos sin fragment_uv
      (shader.mainFragmentZ pushed depth_map fragment_uv) alpha seed = 1 := by
  simp [shader.sampleKeyIllumination, shader.mainFragmentZ, hflat]

/-- Over a flat depth map every fill sample is 1. -/
theorem shader.flat_fill_sample {K : Type} [LinearOrderedField K] [FloorRing K]
    (pushed : PushConstants K) (depth_map : Vec2 K → K) (cos sin : K → K) (d : K)
    (hflat : ∀ uv, depth_map uv = d) (fragment_uv : Vec2 K) (alpha : K) (seed : Vec2 K) :
    shader.sampleFillIllumination pushed depth_map cos sin fragment_uv
      (shader.mainFragmentZ pushed depth_map fragment_uv) alpha seed = 1 := by
  simp [shader.sampleFillIllumination, shader.mainFragmentZ, hflat]

/-- C11: over exact arithmetic, for a depth map that returns the same value at every texture
coordinate, key-light intensity 1 and dispersion 0, and for every pixel, noise texture and viewing
volume: every tap lies at the fragment's depth, every tap radius `alpha * 16` is positive, every
key and fill sample equals 1, and `main` writes `L = 1`, the same at every pixel. -/
theorem shader.flat_depth_full_illumination {K : Type} [LinearOrderedField K] [FloorRing K]
    (pushed : PushConstants K) (depth_map : Vec2 K → K) (noise : Vec2 K → Vec2 K)
    (cos sin : K → K) (d : K)
    (hflat : ∀ uv, depth_map uv = d)
    (hintensity : pushed.key_light.w = 1) (_hdispersion : pushed.key_light.z = 0) :
    (∀ fragment_uv tap_uv : Vec2 K,
        depth_map tap_uv * -pushed.viewing_volume.z -
          shader.mainFragmentZ pushed depth_map fragment_uv = 0) ∧
      (∀ i : Nat, 0 < (shader.tapAlpha i : K) * shader.kSampleRadius) ∧
      (∀ (gl_FragCoord fragment_uv : Vec2 K) (i : Nat),
        shader.sampleKeyIllumination pushed depth_map cos sin fragment_uv
            (shader.mainFragmentZ pushed depth_map fragment_uv) (shader.tapAlpha i)
            (shader.mainSeed noise gl_FragCoord) = 1 ∧
          shader.sampleFillIllumination pushed depth_map cos sin fragment_uv
            (shader.mainFragmentZ pushed depth_map fragment_uv) (shader.tapAlpha i)
            (shader.mainSeed noise gl_FragCoord) = 1) ∧
      (∀ gl_FragCoord fragment_uv : Vec2 K,
        shader.main pushed depth_map noise cos sin gl_FragCoord fragment_uv =
          { x := 1, y := 0, z := 0, w := 1 }) := by
  refine ⟨fun fragment_uv tap_uv => shader.flat_tap_depth pushed depth_map d hflat fragment_uv tap_uv,
    fun i => shader.tap_radius_pos i, ?_, ?_⟩
  · intro gl_FragCoord fragment_uv i
    exact ⟨shader.flat_key_sample pushed depth_map cos sin d hflat fragment_uv _ _,
      shader.flat_fill_sample pushed depth_map cos sin d hflat fragment_uv _ _⟩
  · intro gl_FragCoord fragment_uv
    have hsum : (List.range shader.kTapCount).foldl
        (shader.tapStep pushed depth_map cos sin fragment_uv
          (shader.mainFragmentZ pushed depth_map fragment_uv)
          (shader.mainSeed noise gl_FragCoord)) 0 = 8 := by
      rw [shader.foldl_tapStep]
      simp only [shader.flat_key_sample pushed depth_map cos sin d hflat,
        shader.flat_fill_sample pushed depth_map cos sin d hflat, hintensity]
      norm_num [shader.kTapCount]
    have hclamp : shader.clamp ((8 : K) / ((shader.kTapCount : Nat) : K)) 0 1 = 1 := by
      norm_num [shader.clamp, shader.kTapCount]
    simp only [shader.main, hsum, hclamp]

/-- A flat depth map of value 1/2 over the rationals, key light of intensity 1 and dispersion 0,
seen at the pixel (3, 4). -/
theorem shader.flat_depth_full_illumination_witness :
    shader.main (⟨⟨1, 2, 0, 1⟩, ⟨100, 100, 10⟩⟩ : PushConstants ℚ) (fun _ => 1 / 2) (fun v => v)
        (fun x => x) (fun x => 1 - x) ⟨3, 4⟩ ⟨1 / 3, 1 / 4⟩ =
      { x := 1, y := 0, z := 0, w := 1 } :=
  (shader.flat_depth_full_illumination (⟨⟨1, 2, 0, 1⟩, ⟨100, 100, 10⟩⟩ : PushConstants ℚ)
    (fun _ => 1 / 2) (fun v => v) (fun x => x) (fun x => 1 - x) (1 / 2)
    (fun _ => rfl) rfl rfl).2.2.2 ⟨3, 4⟩ ⟨1 / 3, 1 / 4⟩

end impl
end escher
